import Mathlib

/-!
Verification of the export/share pipeline of the React QR-code generator
(src/src/App.jsx).  The pipeline is embedded shallowly: the outcomes of the
consumed external contracts (html-to-image serializers, fetch/blob
conversion, navigator.share) are supplied by an environment record, and the
two handlers are total functions from that environment to a log of
observable effects (serializer calls, browser downloads, share invocations,
toast notifications), with the JS try/catch mirrored by a body function that
returns the accumulated effects together with an optional escaping error.
-/

/-- A user-visible toast notification, as produced by react-hot-toast. -/
inductive Toast where
  | success : String → Toast
  | error : String → Toast
deriving DecidableEq

/-- Which html-to-image serializer was invoked (toPng / toSvg). -/
inductive Serializer where
  | png
  | svg
deriving DecidableEq

/-- A browser download triggered through a temporary anchor element:
`link.download` and `link.href` from App.jsx lines 23-26. -/
structure Download where
  filename : String
  content : String
deriving DecidableEq

/-- The payload handed to navigator.share in App.jsx lines 41-45: one File
(name, MIME type, bytes) plus a title and a text. -/
structure SharePayload where
  fileName : String
  fileType : String
  fileData : String
  title : String
  shareText : String
deriving DecidableEq

/-- Log of the observable effects of one handler invocation. -/
structure Effects where
  serializations : List Serializer
  downloads : List Download
  shareInvocations : List SharePayload
  sharesCompleted : List SharePayload
  toasts : List Toast
deriving DecidableEq

/-- The empty effect log. -/
def noEffects : Effects :=
  { serializations := [], downloads := [], shareInvocations := [],
    sharesCompleted := [], toasts := [] }

/-- Outcomes of the external contracts consumed by the pipeline: the two
serializers applied to the current element, the fetch/blob conversion, the
presence of navigator.share and the result of calling it. -/
structure Env where
  toPng : Except String String
  toSvg : Except String String
  blobOf : String → Except String String
  shareAvailable : Bool
  shareCall : SharePayload → Except String Unit

/-- JavaScript String.prototype.toLowerCase restricted to the formats in
play: lowercase every character. -/
def jsToLower (s : String) : String :=
  ⟨s.data.map Char.toLower⟩

/-- The serializer result selected by `format === 'PNG' ? toPng : toSvg`
(App.jsx lines 19-21). -/
def serOf (env : Env) (format : String) : Except String String :=
  if format == "PNG" then env.toPng else env.toSvg

/-- Which serializer the ternary at App.jsx lines 19-21 invokes. -/
def fmtSer (format : String) : Serializer :=
  if format == "PNG" then Serializer.png else Serializer.svg

/-- Body of handleDownload's try block (App.jsx lines 18-28): returns the
effects performed before the block finished and the error escaping it, if
any.  The only throwing statement is the serializer call, which comes
first, so an escaping error leaves only the serializer invocation behind. -/
def downloadTry (env : Env) (format : String) : Effects × Option String :=
  match serOf env format with
  | Except.error e =>
      ({ noEffects with serializations := [fmtSer format] }, some e)
  | Except.ok dataUrl =>
      ({ noEffects with
           serializations := [fmtSer format],
           downloads := [{ filename := "qr-code." ++ jsToLower format,
                           content := dataUrl }],
           toasts := [Toast.success ("Downloaded as " ++ format)] }, none)

/-- handleDownload (App.jsx lines 17-32): the try body, with any escaping
error caught and turned into the toast "Download failed". -/
def handleDownload (env : Env) (format : String) : Effects :=
  match downloadTry env format with
  | (eff, none) => eff
  | (eff, some _) =>
      { eff with toasts := eff.toasts ++ [Toast.error "Download failed"] }

/-- The File plus title and text handed to navigator.share (App.jsx lines
38-44): `new File([blob], 'qr-code.png', { type: 'image/png' })` with the
fixed title and text. -/
def sharePayloadOf (blobData : String) : SharePayload :=
  { fileName := "qr-code.png", fileType := "image/png", fileData := blobData,
    title := "QR Code", shareText := "Check out this QR code!" }

/-- Body of handleShare's try block (App.jsx lines 35-48): serialize to PNG,
convert to a blob, build the File, then either call navigator.share (which
may itself reject) or throw "Sharing not supported" when the capability is
absent.  Effects performed before a throw are kept in the log. -/
def shareTry (env : Env) : Effects × Option String :=
  match env.toPng with
  | Except.error e =>
      ({ noEffects with serializations := [Serializer.png] }, some e)
  | Except.ok dataUrl =>
    match env.blobOf dataUrl with
    | Except.error e =>
        ({ noEffects with serializations := [Serializer.png] }, some e)
    | Except.ok blobData =>
        if env.shareAvailable then
          match env.shareCall (sharePayloadOf blobData) with
          | Except.ok _ =>
              ({ noEffects with
                   serializations := [Serializer.png],
                   shareInvocations := [sharePayloadOf blobData],
                   sharesCompleted := [sharePayloadOf blobData] }, none)
          | Except.error e =>
              ({ noEffects with
                   serializations := [Serializer.png],
                   shareInvocations := [sharePayloadOf blobData] }, some e)
        else
          ({ noEffects with serializations := [Serializer.png] },
           some "Sharing not supported")

/-- handleShare (App.jsx lines 34-52): the try body, with any escaping error
caught and turned into the toast "Sharing failed". -/
def handleShare (env : Env) : Effects :=
  match shareTry env with
  | (eff, none) => eff
  | (eff, some _) =>
      { eff with toasts := eff.toasts ++ [Toast.error "Sharing failed"] }

/-- The React state of the App component (App.jsx lines 8-15), together with
the qrRef handle to the rendered element (modelled as an opaque id since
the pipeline only reads it). -/
structure AppState where
  text : String
  size : Nat
  fgColor : String
  bgColor : String
  level : String
  includeMargin : Bool
  darkMode : Bool
  qrRef : Nat
deriving DecidableEq

/-- The user events the component handles: the state setters wired to the
form controls and the two export buttons. -/
inductive Event where
  | setText : String → Event
  | setSize : Nat → Event
  | setFgColor : String → Event
  | setBgColor : String → Event
  | setLevel : String → Event
  | setIncludeMargin : Bool → Event
  | setDarkMode : Bool → Event
  | clickDownload : String → Event
  | clickShare : Event

/-- One event of the component: setters replace the corresponding state
field; the export buttons run the pipeline handlers, which call no setter
(App.jsx lines 17-52 contain no setXxx call), so they return the state
unchanged together with their effect log. -/
def step (env : Env) (st : AppState) : Event → AppState × Effects
  | Event.setText s => ({ st with text := s }, noEffects)
  | Event.setSize n => ({ st with size := n }, noEffects)
  | Event.setFgColor c => ({ st with fgColor := c }, noEffects)
  | Event.setBgColor c => ({ st with bgColor := c }, noEffects)
  | Event.setLevel l => ({ st with level := l }, noEffects)
  | Event.setIncludeMargin b => ({ st with includeMargin := b }, noEffects)
  | Event.setDarkMode b => ({ st with darkMode := b }, noEffects)
  | Event.clickDownload format => (st, handleDownload env format)
  | Event.clickShare => (st, handleShare env)

/-- JavaScript `a || b` on strings: the empty string is the only falsy
string. -/
def jsStringOr (a b : String) : String :=
  if a = "" then b else a

/-- The props of the rendered QRCodeCanvas element (App.jsx lines 165-172). -/
structure QRProps where
  value : String
  size : Nat
  level : String
  includeMargin : Bool
  fgColor : String
  bgColor : String
deriving DecidableEq

/-- The QRCodeCanvas rendered from the current state, with the payload
`text || 'https://stackblitz.com'` (App.jsx line 166). -/
def renderedQR (st : AppState) : QRProps :=
  { value := jsStringOr st.text "https://stackblitz.com",
    size := st.size, level := st.level, includeMargin := st.includeMargin,
    fgColor := st.fgColor, bgColor := st.bgColor }

/-- An environment in which every external contract succeeds. -/
def envOk : Env :=
  { toPng := Except.ok "data:image/png;base64,AAA",
    toSvg := Except.ok "data:image/svg+xml,BBB",
    blobOf := fun _ => Except.ok "pngbytes",
    shareAvailable := true,
    shareCall := fun _ => Except.ok () }

/-- An environment in which every external contract fails and the platform
has no share capability. -/
def envFail : Env :=
  { toPng := Except.error "detached element",
    toSvg := Except.error "detached element",
    blobOf := fun _ => Except.error "network error",
    shareAvailable := false,
    shareCall := fun _ => Except.error "rejected" }

/-- An environment in which serialization and blob conversion succeed but
navigator.share is undefined. -/
def envNoShare : Env :=
  { toPng := Except.ok "data:image/png;base64,AAA",
    toSvg := Except.ok "data:image/svg+xml,BBB",
    blobOf := fun _ => Except.ok "pngbytes",
    shareAvailable := false,
    shareCall := fun _ => Except.error "unreachable" }

/-- A concrete app state: the spec's scenario parameters. -/
def st0 : AppState :=
  { text := "https://example.com", size := 256, fgColor := "#000000",
    bgColor := "#ffffff", level := "L", includeMargin := true,
    darkMode := false, qrRef := 0 }

/-- Global state shared by concurrently pending download tasks: the app
state plus the logs the tasks append to as they complete. -/
structure GState where
  app : AppState
  toastLog : List Toast
  downloadLog : List Download
deriving DecidableEq

/-- Local state of one pending handleDownload invocation: the serializer
result once its await resolved, and the completion toast once finished. -/
structure TaskState where
  serRes : Option (Except String String)
  outcome : Option Toast

/-- A download task that has not taken a step yet. -/
def initTask : TaskState := { serRes := none, outcome := none }

/-- The completion toast of an uninterrupted handleDownload run. -/
def soloToast (env : Env) (format : String) : Toast :=
  match serOf env format with
  | Except.ok _ => Toast.success ("Downloaded as " ++ format)
  | Except.error _ => Toast.error "Download failed"

/-- Progress of a task: 0 = serializer not yet called, 1 = serializer
resolved, 2 = completed. -/
def phaseOf (t : TaskState) : Nat :=
  match t.serRes, t.outcome with
  | none, _ => 0
  | some _, none => 1
  | some _, some _ => 2

/-- One atomic step of a pending handleDownload invocation, split at its
single await point: the first step calls the serializer and records the
result locally; the second step finishes the handler, appending its
download and completion toast to the shared logs.  A completed task steps
to itself. -/
def taskStep (env : Env) (format : String) (t : TaskState) (g : GState) :
    TaskState × GState :=
  match t.serRes, t.outcome with
  | none, o => ({ serRes := some (serOf env format), outcome := o }, g)
  | some (Except.ok u), none =>
      ({ t with outcome := some (Toast.success ("Downloaded as " ++ format)) },
       { g with
           toastLog := g.toastLog ++ [Toast.success ("Downloaded as " ++ format)],
           downloadLog := g.downloadLog ++
             [{ filename := "qr-code." ++ jsToLower format, content := u }] })
  | some (Except.error _), none =>
      ({ t with outcome := some (Toast.error "Download failed") },
       { g with toastLog := g.toastLog ++ [Toast.error "Download failed"] })
  | some _, some _ => (t, g)

/-- Interleaved execution of two pending download invocations under a
schedule: true steps the first task, false the second. -/
def runSched (envA envB : Env) (fA fB : String) :
    List Bool → TaskState × TaskState × GState → TaskState × TaskState × GState
  | [], s => s
  | true :: rest, (tA, tB, g) =>
      let p := taskStep envA fA tA g
      runSched envA envB fA fB rest (p.1, tB, p.2)
  | false :: rest, (tA, tB, g) =>
      let p := taskStep envB fB tB g
      runSched envA envB fA fB rest (tA, p.1, p.2)

/-- The states a download task can reach: untouched, serializer resolved
with its own environment's result, or completed with its solo outcome. -/
inductive TaskPhase (env : Env) (format : String) : TaskState → Prop where
  | start : TaskPhase env format initTask
  | mid : TaskPhase env format
      { serRes := some (serOf env format), outcome := none }
  | done : TaskPhase env format
      { serRes := some (serOf env format),
        outcome := some (soloToast env format) }

/-- A concrete global state for concrete runs. -/
def g0 : GState := { app := st0, toastLog := [], downloadLog := [] }

/-- Evaluation lemma: the format string PNG selects the PNG serializer. -/
theorem fmtSer_png : fmtSer "PNG" = Serializer.png := by decide

/-- Evaluation lemma: the format string SVG selects the SVG serializer. -/
theorem fmtSer_svg : fmtSer "SVG" = Serializer.svg := by decide

/-- Evaluation lemma for the PNG filename. -/
theorem qrname_png : "qr-code." ++ jsToLower "PNG" = "qr-code.png" := by
  decide

/-- Evaluation lemma for the SVG filename. -/
theorem qrname_svg : "qr-code." ++ jsToLower "SVG" = "qr-code.svg" := by
  decide

/-- Evaluation lemma for the PNG success toast text. -/
theorem downloaded_png : "Downloaded as " ++ "PNG" = "Downloaded as PNG" := by
  decide

/-- When the try body finishes without an error, handleDownload returns its
effects unchanged. -/
theorem handleDownload_eq_ok (env : Env) (format : String) (eff : Effects)
    (h : downloadTry env format = (eff, none)) :
    handleDownload env format = eff := by
  unfold handleDownload
  rw [h]

/-- When an error escapes the try body, handleDownload appends exactly the
failure toast to the body's effects. -/
theorem handleDownload_eq_err (env : Env) (format : String) (eff : Effects)
    (e : String) (h : downloadTry env format = (eff, some e)) :
    handleDownload env format =
      { eff with toasts := eff.toasts ++ [Toast.error "Download failed"] } := by
  unfold handleDownload
  rw [h]

/-- When the try body finishes without an error, handleShare returns its
effects unchanged. -/
theorem handleShare_eq_ok (env : Env) (eff : Effects)
    (h : shareTry env = (eff, none)) : handleShare env = eff := by
  unfold handleShare
  rw [h]

/-- When an error escapes the try body, handleShare appends exactly the
failure toast to the body's effects. -/
theorem handleShare_eq_err (env : Env) (eff : Effects) (e : String)
    (h : shareTry env = (eff, some e)) :
    handleShare env =
      { eff with toasts := eff.toasts ++ [Toast.error "Sharing failed"] } := by
  unfold handleShare
  rw [h]

/-- The two possible results of handleDownload's try body: the selected
serializer failed and only its invocation is logged, or it succeeded and
the download plus the success toast are logged. -/
theorem downloadTry_cases (env : Env) (format : String) :
    (∃ e, serOf env format = Except.error e ∧
       downloadTry env format =
         ({ noEffects with serializations := [fmtSer format] }, some e)) ∨
    (∃ u, serOf env format = Except.ok u ∧
       downloadTry env format =
         ({ noEffects with
              serializations := [fmtSer format],
              downloads := [{ filename := "qr-code." ++ jsToLower format,
                              content := u }],
              toasts := [Toast.success ("Downloaded as " ++ format)] },
          none)) := by
  unfold downloadTry
  cases h : serOf env format with
  | error e => exact Or.inl ⟨e, rfl, rfl⟩
  | ok u => exact Or.inr ⟨u, rfl, rfl⟩

/-- The possible results of handleShare's try body: an error before the
share capability check (serialization or blob failure, or capability
absent), a completed share call, or a rejected share call.  Only the last
two log a share invocation, and both require navigator.share present. -/
theorem shareTry_cases (env : Env) :
    (∃ e, shareTry env =
       ({ noEffects with serializations := [Serializer.png] }, some e)) ∨
    (∃ bd, env.shareAvailable = true ∧ shareTry env =
       ({ noEffects with
            serializations := [Serializer.png],
            shareInvocations := [sharePayloadOf bd],
            sharesCompleted := [sharePayloadOf bd] }, none)) ∨
    (∃ bd e, env.shareAvailable = true ∧ shareTry env =
       ({ noEffects with
            serializations := [Serializer.png],
            shareInvocations := [sharePayloadOf bd] }, some e)) := by
  unfold shareTry
  cases hp : env.toPng with
  | error e => exact Or.inl ⟨e, rfl⟩
  | ok du =>
    cases hb : env.blobOf du with
    | error e => exact Or.inl ⟨e, by simp [hb]⟩
    | ok bd =>
      cases hs : env.shareAvailable with
      | false =>
          exact Or.inl ⟨"Sharing not supported", by simp [hb]⟩
      | true =>
        cases hc : env.shareCall (sharePayloadOf bd) with
        | ok u =>
            exact Or.inr (Or.inl ⟨bd, rfl, by simp [hb, hc]⟩)
        | error e =>
            exact Or.inr (Or.inr ⟨bd, e, rfl, by simp [hb, hc]⟩)

/-- A task is never past phase 2. -/
theorem phaseOf_le_two (t : TaskState) : phaseOf t ≤ 2 := by
  rcases t with ⟨sr, oc⟩
  rcases sr with _ | r
  · simp [phaseOf]
  · rcases oc with _ | o <;> simp [phaseOf]

/-- A task step never writes the app state. -/
theorem taskStep_app (env : Env) (format : String) (t : TaskState)
    (g : GState) : (taskStep env format t g).2.app = g.app := by
  rcases t with ⟨sr, oc⟩
  rcases sr with _ | r
  · rfl
  · rcases oc with _ | o <;> rcases r with e | u <;> rfl

/-- A step of a task preserves its reachable-state invariant and advances
its phase by one until it is complete. -/
theorem taskStep_phase (env : Env) (format : String) (t : TaskState)
    (g : GState) (h : TaskPhase env format t) :
    TaskPhase env format (taskStep env format t g).1 ∧
    phaseOf (taskStep env format t g).1 = min 2 (phaseOf t + 1) := by
  cases h with
  | start =>
      refine ⟨TaskPhase.mid, ?_⟩
      simp [taskStep, phaseOf, initTask]
  | mid =>
      cases hs : serOf env format with
      | ok u =>
          have hsolo : soloToast env format =
              Toast.success ("Downloaded as " ++ format) := by
            simp [soloToast, hs]
          refine ⟨?_, by simp [taskStep, phaseOf]⟩
          have hd := @TaskPhase.done env format
          rw [hs, hsolo] at hd
          exact hd
      | error e =>
          have hsolo : soloToast env format =
              Toast.error "Download failed" := by
            simp [soloToast, hs]
          refine ⟨?_, by simp [taskStep, phaseOf]⟩
          have hd := @TaskPhase.done env format
          rw [hs, hsolo] at hd
          exact hd
  | done =>
      cases hs : serOf env format with
      | ok u =>
          refine ⟨?_, by simp [taskStep, phaseOf]⟩
          have hd := @TaskPhase.done env format
          rw [hs] at hd
          exact hd
      | error e =>
          refine ⟨?_, by simp [taskStep, phaseOf]⟩
          have hd := @TaskPhase.done env format
          rw [hs] at hd
          exact hd

/-- Once a completed task is in its done state its outcome is its solo
outcome. -/
theorem phase_two_outcome (env : Env) (format : String) (t : TaskState)
    (h : TaskPhase env format t) (h2 : 2 ≤ phaseOf t) :
    t.outcome = some (soloToast env format) := by
  cases h with
  | start => simp [phaseOf, initTask] at h2
  | mid => simp [phaseOf] at h2
  | done => rfl

/-- After any schedule granting the first task at least as many steps as it
needs, its outcome is its own solo outcome, independent of how the other
task's steps interleave. -/
theorem runSched_left (envA envB : Env) (fA fB : String) (sched : List Bool) :
    ∀ (tA tB : TaskState) (g : GState),
      TaskPhase envA fA tA →
      2 ≤ phaseOf tA + sched.count true →
      (runSched envA envB fA fB sched (tA, tB, g)).1.outcome =
        some (soloToast envA fA) := by
  induction sched with
  | nil =>
      intro tA tB g hA hc
      simp [List.count] at hc
      exact phase_two_outcome envA fA tA hA hc
  | cons b rest ih =>
      intro tA tB g hA hc
      cases b with
      | true =>
          obtain ⟨hinv, hph⟩ := taskStep_phase envA fA tA g hA
          have hcount : (true :: rest).count true = rest.count true + 1 := by
            simp [List.count_cons]
          rw [hcount] at hc
          show (runSched envA envB fA fB rest
              ((taskStep envA fA tA g).1, tB,
               (taskStep envA fA tA g).2)).1.outcome = _
          refine ih _ _ _ hinv ?_
          rw [hph]
          omega
      | false =>
          have hcount : (false :: rest).count true = rest.count true := by
            simp [List.count_cons]
          rw [hcount] at hc
          show (runSched envA envB fA fB rest
              (tA, (taskStep envB fB tB g).1,
               (taskStep envB fB tB g).2)).1.outcome = _
          exact ih _ _ _ hA hc

/-- Symmetric statement for the second task. -/
theorem runSched_right (envA envB : Env) (fA fB : String)
    (sched : List Bool) :
    ∀ (tA tB : TaskState) (g : GState),
      TaskPhase envB fB tB →
      2 ≤ phaseOf tB + sched.count false →
      (runSched envA envB fA fB sched (tA, tB, g)).2.1.outcome =
        some (soloToast envB fB) := by
  induction sched with
  | nil =>
      intro tA tB g hB hc
      simp [List.count] at hc
      exact phase_two_outcome envB fB tB hB hc
  | cons b rest ih =>
      intro tA tB g hB hc
      cases b with
      | true =>
          have hcount : (true :: rest).count false = rest.count false := by
            simp [List.count_cons]
          rw [hcount] at hc
          show (runSched envA envB fA fB rest
              ((taskStep envA fA tA g).1, tB,
               (taskStep envA fA tA g).2)).2.1.outcome = _
          exact ih _ _ _ hB hc
      | false =>
          obtain ⟨hinv, hph⟩ := taskStep_phase envB fB tB g hB
          have hcount : (false :: rest).count false = rest.count false + 1 := by
            simp [List.count_cons]
          rw [hcount] at hc
          show (runSched envA envB fA fB rest
              (tA, (taskStep envB fB tB g).1,
               (taskStep envB fB tB g).2)).2.1.outcome = _
          refine ih _ _ _ hinv ?_
          rw [hph]
          omega

/-- No schedule of the two tasks ever changes the app state. -/
theorem runSched_app (envA envB : Env) (fA fB : String) (sched : List Bool) :
    ∀ (tA tB : TaskState) (g : GState),
      (runSched envA envB fA fB sched (tA, tB, g)).2.2.app = g.app := by
  induction sched with
  | nil => intro tA tB g; rfl
  | cons b rest ih =>
      intro tA tB g
      cases b with
      | true =>
          show (runSched envA envB fA fB rest
              ((taskStep envA fA tA g).1, tB,
               (taskStep envA fA tA g).2)).2.2.app = g.app
          rw [ih]
          exact taskStep_app envA fA tA g
      | false =>
          show (runSched envA envB fA fB rest
              (tA, (taskStep envB fB tB g).1,
               (taskStep envB fB tB g).2)).2.2.app = g.app
          rw [ih]
          exact taskStep_app envB fB tB g

/-- The completion toast of handleDownload is exactly its solo outcome. -/
theorem handleDownload_toasts (env : Env) (format : String) :
    (handleDownload env format).toasts = [soloToast env format] := by
  rcases downloadTry_cases env format with ⟨e, hs, h⟩ | ⟨u, hs, h⟩
  · rw [handleDownload_eq_err env format _ e h]
    simp [soloToast, hs, noEffects]
  · rw [handleDownload_eq_ok env format _ h]
    simp [soloToast, hs, noEffects]

/-- Claim C1, counterexample: in an environment where serialization, blob
conversion and the share call all succeed, handleShare completes a share
yet emits no notification at all — a silent success, refuting the claim
that every export/share attempt produces a success or failure message. -/
theorem c1_counterexample :
    (handleShare envOk).toasts = [] ∧
    (handleShare envOk).sharesCompleted = [sharePayloadOf "pngbytes"] := by
  exact ⟨rfl, rfl⟩

/-- Claim C1 (amended): every handleDownload invocation emits exactly one
notification; every handleShare invocation whose try body raises an error
emits exactly the failure notification, while a handleShare invocation
whose share call succeeds emits no notification. -/
theorem c1_notifications (env : Env) (format : String) :
    (handleDownload env format).toasts.length = 1 ∧
    ((shareTry env).2.isSome →
      (handleShare env).toasts = [Toast.error "Sharing failed"]) ∧
    ((shareTry env).2 = none → (handleShare env).toasts = []) := by
  refine ⟨by simp [handleDownload_toasts], ?_, ?_⟩
  · intro hs
    rcases shareTry_cases env with ⟨e, h⟩ | ⟨bd, hsa, h⟩ | ⟨bd, e, hsa, h⟩
    · rw [handleShare_eq_err env _ e h]
      simp [noEffects]
    · rw [h] at hs
      simp at hs
    · rw [handleShare_eq_err env _ e h]
      simp [noEffects]
  · intro hn
    rcases shareTry_cases env with ⟨e, h⟩ | ⟨bd, hsa, h⟩ | ⟨bd, e, hsa, h⟩
    · rw [h] at hn
      simp at hn
    · rw [handleShare_eq_ok env _ h]
      simp [noEffects]
    · rw [h] at hn
      simp at hn

/-- Claim C1 witness: concrete instances of the amended statement. -/
theorem c1_witness :
    (handleDownload envOk "PNG").toasts.length = 1 ∧
    (handleShare envFail).toasts = [Toast.error "Sharing failed"] ∧
    (handleShare envOk).toasts = [] :=
  ⟨(c1_notifications envOk "PNG").1,
   (c1_notifications envFail "PNG").2.1 (by decide),
   (c1_notifications envOk "PNG").2.2 (by decide)⟩

/-- Claim C2: every error escaping a handler's try body is caught and
converted into exactly one failure notification, with no download and no
completed share on the failing path; neither handler propagates the
error (both are total on every environment, returning only an effect
log). -/
theorem c2_errors_caught (env : Env) (format : String) :
    ((downloadTry env format).2.isSome →
       (handleDownload env format).downloads = [] ∧
       (handleDownload env format).sharesCompleted = [] ∧
       (handleDownload env format).toasts = [Toast.error "Download failed"]) ∧
    ((shareTry env).2.isSome →
       (handleShare env).downloads = [] ∧
       (handleShare env).sharesCompleted = [] ∧
       (handleShare env).toasts = [Toast.error "Sharing failed"]) := by
  constructor
  · intro hs
    rcases downloadTry_cases env format with ⟨e, _, h⟩ | ⟨u, _, h⟩
    · rw [handleDownload_eq_err env format _ e h]
      exact ⟨rfl, rfl, rfl⟩
    · rw [h] at hs
      simp at hs
  · intro hs
    rcases shareTry_cases env with ⟨e, h⟩ | ⟨bd, hsa, h⟩ | ⟨bd, e, hsa, h⟩
    · rw [handleShare_eq_err env _ e h]
      exact ⟨rfl, rfl, rfl⟩
    · rw [h] at hs
      simp at hs
    · rw [handleShare_eq_err env _ e h]
      exact ⟨rfl, rfl, rfl⟩

/-- Claim C2 witness: both failing paths at a concrete environment. -/
theorem c2_witness :
    (handleDownload envFail "PNG").downloads = [] ∧
    (handleDownload envFail "PNG").toasts = [Toast.error "Download failed"] ∧
    (handleShare envFail).sharesCompleted = [] ∧
    (handleShare envFail).toasts = [Toast.error "Sharing failed"] :=
  ⟨((c2_errors_caught envFail "PNG").1 (by decide)).1,
   ((c2_errors_caught envFail "PNG").1 (by decide)).2.2,
   ((c2_errors_caught envFail "PNG").2 (by decide)).2.1,
   ((c2_errors_caught envFail "PNG").2 (by decide)).2.2⟩

/-- Claim C3: when navigator.share is absent, every handleShare invocation
yields the failure notification, triggers no download fallback and
neither invokes nor completes any share. -/
theorem c3_share_unsupported (env : Env) (h : env.shareAvailable = false) :
    (handleShare env).toasts = [Toast.error "Sharing failed"] ∧
    (handleShare env).downloads = [] ∧
    (handleShare env).shareInvocations = [] ∧
    (handleShare env).sharesCompleted = [] := by
  rcases shareTry_cases env with ⟨e, he⟩ | ⟨bd, hsa, he⟩ | ⟨bd, e, hsa, he⟩
  · rw [handleShare_eq_err env _ e he]
    exact ⟨rfl, rfl, rfl, rfl⟩
  · rw [h] at hsa
    simp at hsa
  · rw [h] at hsa
    simp at hsa

/-- Claim C3 witness: a concrete platform without share capability. -/
theorem c3_witness :
    (handleShare envNoShare).toasts = [Toast.error "Sharing failed"] ∧
    (handleShare envNoShare).downloads = [] ∧
    (handleShare envNoShare).shareInvocations = [] ∧
    (handleShare envNoShare).sharesCompleted = [] :=
  c3_share_unsupported envNoShare rfl

/-- Claim C4: format PNG invokes only the PNG serializer and any file it
downloads is named qr-code.png; format SVG invokes only the SVG serializer
and any file it downloads is named qr-code.svg. -/
theorem c4_format_paths (env : Env) :
    (handleDownload env "PNG").serializations = [Serializer.png] ∧
    (handleDownload env "SVG").serializations = [Serializer.svg] ∧
    (handleDownload env "PNG").downloads.all
      (fun d => d.filename == "qr-code.png") = true ∧
    (handleDownload env "SVG").downloads.all
      (fun d => d.filename == "qr-code.svg") = true := by
  refine ⟨?_, ?_, ?_, ?_⟩
  · rcases downloadTry_cases env "PNG" with ⟨e, _, h⟩ | ⟨u, _, h⟩
    · rw [handleDownload_eq_err env "PNG" _ e h]
      simp [noEffects, fmtSer_png]
    · rw [handleDownload_eq_ok env "PNG" _ h]
      simp [noEffects, fmtSer_png]
  · rcases downloadTry_cases env "SVG" with ⟨e, _, h⟩ | ⟨u, _, h⟩
    · rw [handleDownload_eq_err env "SVG" _ e h]
      simp [noEffects, fmtSer_svg]
    · rw [handleDownload_eq_ok env "SVG" _ h]
      simp [noEffects, fmtSer_svg]
  · rcases downloadTry_cases env "PNG" with ⟨e, _, h⟩ | ⟨u, _, h⟩
    · rw [handleDownload_eq_err env "PNG" _ e h]
      simp [noEffects]
    · rw [handleDownload_eq_ok env "PNG" _ h]
      simp [noEffects, qrname_png]
  · rcases downloadTry_cases env "SVG" with ⟨e, _, h⟩ | ⟨u, _, h⟩
    · rw [handleDownload_eq_err env "SVG" _ e h]
      simp [noEffects]
    · rw [handleDownload_eq_ok env "SVG" _ h]
      simp [noEffects, qrname_svg]

/-- Claim C5: whenever PNG serialization of the current element succeeds,
handleDownload with format PNG downloads exactly one file named
qr-code.png holding the serialized data and emits exactly the success
notification "Downloaded as PNG". -/
theorem c5_png_scenario (env : Env) (u : String)
    (h : env.toPng = Except.ok u) :
    handleDownload env "PNG" =
      { serializations := [Serializer.png],
        downloads := [{ filename := "qr-code.png", content := u }],
        shareInvocations := [], sharesCompleted := [],
        toasts := [Toast.success "Downloaded as PNG"] } := by
  have hs : serOf env "PNG" = Except.ok u := by
    simp [serOf, h]
  rcases downloadTry_cases env "PNG" with ⟨e, he, hd⟩ | ⟨v, hv, hd⟩
  · rw [hs] at he
    simp at he
  · rw [hv] at hs
    injection hs with huv
    subst huv
    rw [handleDownload_eq_ok env "PNG" _ hd]
    simp [noEffects, fmtSer_png, qrname_png, downloaded_png]

/-- Claim C5 witness: the scenario at a concrete environment. -/
theorem c5_witness :
    handleDownload envOk "PNG" =
      { serializations := [Serializer.png],
        downloads := [{ filename := "qr-code.png",
                        content := "data:image/png;base64,AAA" }],
        shareInvocations := [], sharesCompleted := [],
        toasts := [Toast.success "Downloaded as PNG"] } :=
  c5_png_scenario envOk "data:image/png;base64,AAA" rfl

/-- Claim C6: handleShare only ever invokes the PNG serializer, and every
share invocation it performs carries a file named qr-code.png with MIME
type image/png together with the fixed title and text. -/
theorem c6_share_payload (env : Env) :
    (handleShare env).serializations = [Serializer.png] ∧
    (handleShare env).shareInvocations.all
      (fun p => p.fileName == "qr-code.png" && p.fileType == "image/png" &&
        p.title == "QR Code" &&
        p.shareText == "Check out this QR code!") = true := by
  rcases shareTry_cases env with ⟨e, h⟩ | ⟨bd, hsa, h⟩ | ⟨bd, e, hsa, h⟩
  · rw [handleShare_eq_err env _ e h]
    exact ⟨rfl, rfl⟩
  · rw [handleShare_eq_ok env _ h]
    refine ⟨rfl, ?_⟩
    simp [sharePayloadOf]
  · rw [handleShare_eq_err env _ e h]
    refine ⟨rfl, ?_⟩
    simp [sharePayloadOf]

/-- Claim C7: a download click never modifies any piece of application
state: the state after the event, including every form field, the theme
flag and the rendered-element reference, is the state before it. -/
theorem c7_download_no_state_change (env : Env) (st : AppState)
    (format : String) :
    (step env st (Event.clickDownload format)).1 = st := rfl

/-- Claim C8: under any interleaving that gives each of two pending
handleDownload invocations its two steps, each task completes with exactly
its own solo outcome (the one toast its independent invocation emits), and
the shared application state is never written by either. -/
theorem c8_concurrent_independent (envA envB : Env) (fA fB : String)
    (sched : List Bool) (g : GState)
    (hA : 2 ≤ sched.count true) (hB : 2 ≤ sched.count false) :
    (runSched envA envB fA fB sched (initTask, initTask, g)).1.outcome =
      some (soloToast envA fA) ∧
    (runSched envA envB fA fB sched (initTask, initTask, g)).2.1.outcome =
      some (soloToast envB fB) ∧
    (handleDownload envA fA).toasts = [soloToast envA fA] ∧
    (handleDownload envB fB).toasts = [soloToast envB fB] ∧
    (runSched envA envB fA fB sched (initTask, initTask, g)).2.2.app =
      g.app := by
  refine ⟨?_, ?_, handleDownload_toasts envA fA, handleDownload_toasts envB fB,
    runSched_app envA envB fA fB sched initTask initTask g⟩
  · refine runSched_left envA envB fA fB sched initTask initTask g
      TaskPhase.start ?_
    have h0 : phaseOf initTask = 0 := rfl
    omega
  · refine runSched_right envA envB fA fB sched initTask initTask g
      TaskPhase.start ?_
    have h0 : phaseOf initTask = 0 := rfl
    omega

/-- Claim C8 witness: a concrete alternating schedule of two downloads. -/
theorem c8_witness :
    (runSched envOk envFail "PNG" "SVG" [true, false, true, false]
        (initTask, initTask, g0)).1.outcome = some (soloToast envOk "PNG") ∧
    (runSched envOk envFail "PNG" "SVG" [true, false, true, false]
        (initTask, initTask, g0)).2.1.outcome =
      some (soloToast envFail "SVG") ∧
    (handleDownload envOk "PNG").toasts = [soloToast envOk "PNG"] ∧
    (handleDownload envFail "SVG").toasts = [soloToast envFail "SVG"] ∧
    (runSched envOk envFail "PNG" "SVG" [true, false, true, false]
        (initTask, initTask, g0)).2.2.app = g0.app :=
  c8_concurrent_independent envOk envFail "PNG" "SVG"
    [true, false, true, false] g0 (by decide) (by decide)

/-- Claim C9: any format other than the exact string PNG is serialized by
the SVG serializer while the downloaded filename is qr-code followed by
the lowercased format, so a format like png yields SVG content under a
.png extension. -/
theorem c9_non_png_svg_mismatch (env : Env) (format : String)
    (h : format ≠ "PNG") :
    (handleDownload env format).serializations = [Serializer.svg] ∧
    (handleDownload env format).downloads.all
      (fun d => d.filename == "qr-code." ++ jsToLower format) = true := by
  have hf : fmtSer format = Serializer.svg := by
    simp [fmtSer, h]
  rcases downloadTry_cases env format with ⟨e, _, hd⟩ | ⟨u, _, hd⟩
  · rw [handleDownload_eq_err env format _ e hd]
    exact ⟨by simp [noEffects, hf], by simp [noEffects]⟩
  · rw [handleDownload_eq_ok env format _ hd]
    exact ⟨by simp [noEffects, hf], by simp [noEffects]⟩

/-- Claim C9 witness: the lowercase format png at a concrete environment. -/
theorem c9_witness :
    (handleDownload envOk "png").serializations = [Serializer.svg] ∧
    (handleDownload envOk "png").downloads.all
      (fun d => d.filename == "qr-code." ++ jsToLower "png") = true :=
  c9_non_png_svg_mismatch envOk "png" (by decide)

/-- Claim C10: with an empty text input the rendered QR code encodes the
fallback payload https://stackblitz.com, not the empty string. -/
theorem c10_empty_text_fallback (st : AppState) (h : st.text = "") :
    (renderedQR st).value = "https://stackblitz.com" ∧
    (renderedQR st).value ≠ "" := by
  have hv : (renderedQR st).value = "https://stackblitz.com" := by
    simp [renderedQR, jsStringOr, h]
  refine ⟨hv, ?_⟩
  rw [hv]
  decide

/-- Claim C10 witness: a concrete state with empty text. -/
theorem c10_witness :
    (renderedQR { st0 with text := "" }).value = "https://stackblitz.com" ∧
    (renderedQR { st0 with text := "" }).value ≠ "" :=
  c10_empty_text_fallback { st0 with text := "" } rfl
